import Mathlib

/-!
Verification development for the slorz work/sleep tracker (src/lib.rs).

The Rust source is shallowly embedded as follows:

* `chrono::NaiveDate` is modelled as `ℤ` (a day index; `Duration::days(k)`
  becomes addition/subtraction of `k`).
* `chrono::NaiveTime` is modelled as `ℤ` seconds since midnight; a
  `chrono::Duration` is its difference in seconds, and `num_minutes()` is
  truncating division by 60 (`Int.tdiv`, matching Rust i64 division).
* `i64` values are modelled as `ℤ` (no claim in scope exercises i64 overflow).
* `BTreeMap<NaiveDate, WorkSleep>` is modelled as an association list sorted
  strictly by key; `entry(..).or_insert(..)` followed by a field mutation of
  the returned reference is the single combinator `getMutOrCreateWith`.
* `VecDeque<Period>` is a `List Period` (front = head).
* `Uuid::new_v4()` (a fresh identifier) is modelled by a counter `next_uuid`
  threaded through the state: each generated id is the current counter value.
* Rust `f64` arithmetic in `calc_score` is modelled by exact rationals; the
  transcendental `powf(0.5, ·)` is a function parameter `pw`, constrained in
  theorems only at exponents 0 and 1 where IEEE-754 is exact. `f64::round`
  (round half away from zero) is `roundRat`. The final `as i64` saturating
  cast is omitted (all values in scope are small).
* A `panic!` (from `.expect(..)` on a failed parse) is modelled by the update
  function returning `none`; normal completion returns `some` of the new state.
-/

/-- Embeds struct NewTask: the new-task input buffer (name + quantity text). -/
structure NewTask where
  name : String
  quantity : String
  deriving Repr, DecidableEq

/-- Embeds struct CurrentDateBedtime: the bedtime input buffer. -/
structure CurrentDateBedtime where
  time : String
  is_next_day : Bool
  deriving Repr, DecidableEq

/-- Embeds struct Period: a queued task instance. `id` models the Uuid. -/
structure Period where
  id : ℕ
  name : String
  deriving Repr, DecidableEq

/-- Embeds struct Bedtime: `time` is seconds since midnight (NaiveTime). -/
structure Bedtime where
  time : ℤ
  next_day : Bool
  deriving Repr, DecidableEq

/-- Embeds struct WorkSleepGoals. -/
structure WorkSleepGoals where
  work_sleep_balance : ℤ
  target_work_count : ℤ
  target_bedtime : Bedtime
  bedtime_pts_halflife : ℤ
  deriving Repr, DecidableEq

/-- Embeds struct WorkSleep (one day's record). -/
structure WorkSleep where
  goals : WorkSleepGoals
  actual_work_count : ℤ
  actual_bedtime : Option Bedtime
  deriving Repr, DecidableEq

/-- Embeds struct WorkSleepData: `data` models the BTreeMap as an
association list sorted strictly by date key. -/
structure WorkSleepData where
  week_start : ℤ
  data : List (ℤ × WorkSleep)
  deriving Repr, DecidableEq

/-- Embeds struct Data (the mutable part of Model; `Refs` is empty UI glue).
`next_uuid` is the fresh-identifier supply modelling `Uuid::new_v4()`. -/
structure Data where
  current_date : ℤ
  new_task : NewTask
  current_date_bedtime : CurrentDateBedtime
  planned_work_periods : List Period
  default_work_sleep_goals : WorkSleepGoals
  work_sleep_data : WorkSleepData
  next_uuid : ℕ
  deriving Repr, DecidableEq

/-- Embeds enum Msg. -/
inductive Msg where
  | SetCurrentDate : ℤ → Msg
  | AddNewTask : Msg
  | DeleteTask : ℕ → Msg
  | MoveTaskToTop : ℕ → Msg
  | MoveTaskUp : ℕ → Msg
  | FinishedTopTask : Msg
  | NewTaskNameChanged : String → Msg
  | NewTaskQuantityChanged : String → Msg
  | CurrentDateBedtimeChanged : String → Msg
  | CurrentDateBedtimeNextDayChanged : Msg
  | UpdateBedtime : Msg
  | ViewNextWeek : Msg
  | ViewPreviousWeek : Msg
  | SetWorkSleepBalance : String → Msg
  | SetTargetWorkCount : String → Msg
  | TargetBedtimeChanged : String → Msg
  | TargetBedtimeNextDayChanged : Msg
  | SetBedtimePointsHalflife : String → Msg
  deriving Repr, DecidableEq

/-- Numeric value of a list of ASCII digit characters. -/
def digitsVal (l : List Char) : ℕ :=
  l.foldl (fun a c => 10 * a + (c.toNat - 48)) 0

/-- Embeds Rust `str::parse::<i64>()`: optional leading sign, then at least
one ASCII digit and nothing else; overflow past the i64 range is an error. -/
def parseI64 (s : String) : Option ℤ :=
  match s.toList with
  | [] => none
  | c :: rest =>
    let p : Bool × List Char :=
      if c = '-' then (true, rest)
      else if c = '+' then (false, rest)
      else (false, c :: rest)
    if p.2 = [] then none
    else if p.2.all Char.isDigit then
      let v : ℤ := if p.1 then -(digitsVal p.2 : ℤ) else (digitsVal p.2 : ℤ)
      if -(2 ^ 63) ≤ v ∧ v ≤ 2 ^ 63 - 1 then some v else none
    else none

/-- Splits a character list on the colon separator (list-level `splitOn`). -/
def splitOnColon (l : List Char) : List (List Char) :=
  match l with
  | [] => [[]]
  | c :: rest =>
    let r := splitOnColon rest
    if c = ':' then [] :: r
    else
      match r with
      | [] => [[c]]
      | h :: t => (c :: h) :: t

/-- Embeds `NaiveTime::parse_from_str(s, "%H:%M")`: a 1-2 digit hour in 0..=23,
a colon, a 1-2 digit minute in 0..=59, nothing else; result in seconds. -/
def parseTimeHM (s : String) : Option ℤ :=
  match splitOnColon s.toList with
  | [hc, mc] =>
    if hc ≠ [] ∧ hc.length ≤ 2 ∧ hc.all Char.isDigit ∧
       mc ≠ [] ∧ mc.length ≤ 2 ∧ mc.all Char.isDigit ∧
       digitsVal hc ≤ 23 ∧ digitsVal mc ≤ 59 then
      some ((digitsVal hc : ℤ) * 3600 + (digitsVal mc : ℤ) * 60)
    else none
  | _ => none

/-- The record `or_insert` seeds when a date is absent (zero work count,
no bedtime, a copy of the supplied goals): src/lib.rs lines 100-104. -/
def freshWorkSleep (g : WorkSleepGoals) : WorkSleep :=
  { goals := g, actual_work_count := 0, actual_bedtime := none }

/-- BTreeMap `get`: first (only, when sorted) binding of a date key. -/
def lookupDate : List (ℤ × WorkSleep) → ℤ → Option WorkSleep
  | [], _ => none
  | (k, v) :: rest, d => if d = k then some v else lookupDate rest d

/-- Embeds `get_mut_or_create` (src/lib.rs lines 95-105) together with the
mutation the caller performs through the returned `&mut WorkSleep`:
`entry(date).or_insert(fresh)` and then apply `f` in place. Returns the
record after mutation and the new map; insertion keeps the list sorted,
matching the BTreeMap. `f = id` is a plain `get_mut_or_create` call. -/
def getMutOrCreateWith (d : ℤ) (g : WorkSleepGoals) (f : WorkSleep → WorkSleep) :
    List (ℤ × WorkSleep) → WorkSleep × List (ℤ × WorkSleep)
  | [] => let w := f (freshWorkSleep g); (w, [(d, w)])
  | (k, v) :: rest =>
    if d < k then
      let w := f (freshWorkSleep g); (w, (d, w) :: (k, v) :: rest)
    else if d = k then
      let w := f v; (w, (k, w) :: rest)
    else
      let r := getMutOrCreateWith d g f rest
      (r.1, (k, v) :: r.2)

/-- Embeds `WorkSleepData::set_week_start` (src/lib.rs lines 116-127):
`iter().rev().next()` on the sorted map is the last binding, i.e. the
greatest date key. -/
def setWeekStart (s : WorkSleepData) (current_date : ℤ) : WorkSleepData :=
  let is_latest : Bool :=
    match (s.data.map Prod.fst).getLast? with
    | some last_date => decide (last_date ≤ current_date)
    | none => true
  { s with week_start := if is_latest then current_date - 6 else current_date - 3 }

/-- Embeds `WorkSleepData::set_to_default_goals` (src/lib.rs lines 128-134):
`get_mut_or_create(date, goals).goals = goals.clone()`. -/
def setToDefaultGoals (s : WorkSleepData) (current_date : ℤ)
    (g : WorkSleepGoals) : WorkSleepData :=
  { s with data := (getMutOrCreateWith current_date g
      (fun ws => { ws with goals := g }) s.data).2 }

/-- Embeds `Bedtime::abs_diff` (src/lib.rs lines 143-152): signed difference
in seconds with a 24h (86400 s) shift for each `next_day` flag, then
`num_minutes()` (truncating division by 60) and `abs()`. -/
def absDiff (self other : Bedtime) : ℤ :=
  (((other.time - self.time
      + (if other.next_day then (86400 : ℤ) else 0)
      - (if self.next_day then (86400 : ℤ) else 0)).tdiv 60).natAbs : ℤ)

/-- `f64::round`: nearest integer, ties away from zero. -/
def roundRat (q : ℚ) : ℤ :=
  if 0 ≤ q then ⌊q + 1 / 2⌋ else ⌈q - 1 / 2⌉

/-- Embeds `WorkSleep::calc_score` (src/lib.rs lines 170-183) over exact
rationals; `pw` stands for the f64 `powf(0.5, ·)`. -/
def calcScoreWith (pw : ℚ → ℚ) (ws : WorkSleep) : ℤ :=
  let work_score : ℚ :=
    ((ws.actual_work_count * ws.goals.work_sleep_balance : ℤ) : ℚ)
      / (ws.goals.target_work_count : ℚ)
  let sleep_score : ℚ :=
    match ws.actual_bedtime with
    | some actual_bedtime =>
        ((100 - ws.goals.work_sleep_balance : ℤ) : ℚ)
          * pw ((absDiff actual_bedtime ws.goals.target_bedtime : ℚ)
              / (ws.goals.bedtime_pts_halflife : ℚ))
    | none => 0
  roundRat (work_score + sleep_score)

/-- `VecDeque::swap` on valid indices (both indices used here are in range). -/
def swapList (l : List Period) (i j : ℕ) : List Period :=
  match l[i]?, l[j]? with
  | some a, some b => (l.set i b).set j a
  | _, _ => l

/-- Embeds `init` (src/lib.rs lines 17-41) as a function of the local date. -/
def initData (current_date : ℤ) : Data :=
  { current_date := current_date
    new_task := { name := "", quantity := "1" }
    current_date_bedtime := { time := "", is_next_day := false }
    planned_work_periods := []
    default_work_sleep_goals :=
      { work_sleep_balance := 70
        target_work_count := 6
        target_bedtime := { time := 23 * 3600, next_day := false }
        bedtime_pts_halflife := 30 }
    work_sleep_data := { week_start := current_date - 6, data := [] }
    next_uuid := 0 }

/-- Embeds `update` (src/lib.rs lines 224-356). `none` models a panic
(the `.expect(..)` calls in the three numeric goal setters); every other
branch completes normally with the new state. -/
def update (msg : Msg) (d : Data) : Option Data :=
  match msg with
  | .SetCurrentDate date =>
      some { d with current_date := date,
                    work_sleep_data := setWeekStart d.work_sleep_data date }
  | .AddNewTask =>
      let quantity : ℤ := (parseI64 d.new_task.quantity).getD 1
      let cnt := quantity.toNat
      let added := (List.range cnt).map
        (fun i => { id := d.next_uuid + i, name := d.new_task.name : Period })
      some { d with planned_work_periods := d.planned_work_periods ++ added,
                    next_uuid := d.next_uuid + cnt }
  | .DeleteTask tid =>
      some { d with planned_work_periods :=
        d.planned_work_periods.filter (fun wp => wp.id != tid) }
  | .MoveTaskToTop tid =>
      match d.planned_work_periods.findIdx? (fun wp => wp.id == tid) with
      | some i =>
        match d.planned_work_periods[i]? with
        | some wp =>
          some { d with planned_work_periods :=
            wp :: d.planned_work_periods.eraseIdx i }
        | none => none
      | none => some d
  | .MoveTaskUp tid =>
      match d.planned_work_periods.findIdx? (fun wp => wp.id == tid) with
      | some i =>
        if i = 0 then some d
        else
          let l := swapList d.planned_work_periods i (i - 1)
          some { d with planned_work_periods := l }
      | none => some d
  | .FinishedTopTask =>
      let m := (getMutOrCreateWith d.current_date d.default_work_sleep_goals
        (fun ws => { ws with actual_work_count := ws.actual_work_count + 1 })
        d.work_sleep_data.data).2
      some { d with planned_work_periods := d.planned_work_periods.tail,
                    work_sleep_data := { d.work_sleep_data with data := m } }
  | .NewTaskNameChanged s =>
      some { d with new_task := { d.new_task with name := s } }
  | .NewTaskQuantityChanged s =>
      some { d with new_task := { d.new_task with quantity := s } }
  | .CurrentDateBedtimeChanged s =>
      some { d with current_date_bedtime := { d.current_date_bedtime with time := s } }
  | .CurrentDateBedtimeNextDayChanged =>
      some { d with current_date_bedtime := { d.current_date_bedtime with
        is_next_day := !d.current_date_bedtime.is_next_day } }
  | .UpdateBedtime =>
      match parseTimeHM d.current_date_bedtime.time with
      | some t =>
        let m := (getMutOrCreateWith d.current_date d.default_work_sleep_goals
          (fun ws =>
            { ws with actual_bedtime := some ⟨t, d.current_date_bedtime.is_next_day⟩ })
          d.work_sleep_data.data).2
        some { d with work_sleep_data := { d.work_sleep_data with data := m } }
      | none => some d
  | .ViewNextWeek =>
      some { d with work_sleep_data := { d.work_sleep_data with
        week_start := d.work_sleep_data.week_start + 7 } }
  | .ViewPreviousWeek =>
      some { d with work_sleep_data := { d.work_sleep_data with
        week_start := d.work_sleep_data.week_start - 7 } }
  | .SetWorkSleepBalance s =>
      match parseI64 s with
      | some v =>
        let g := { d.default_work_sleep_goals with work_sleep_balance := v }
        some { d with default_work_sleep_goals := g,
                      work_sleep_data := setToDefaultGoals d.work_sleep_data d.current_date g }
      | none => none
  | .SetTargetWorkCount s =>
      match parseI64 s with
      | some v =>
        let g := { d.default_work_sleep_goals with target_work_count := v }
        some { d with default_work_sleep_goals := g,
                      work_sleep_data := setToDefaultGoals d.work_sleep_data d.current_date g }
      | none => none
  | .TargetBedtimeChanged s =>
      match parseTimeHM s with
      | some t =>
        let g := { d.default_work_sleep_goals with
          target_bedtime := { d.default_work_sleep_goals.target_bedtime with time := t } }
        some { d with default_work_sleep_goals := g,
                      work_sleep_data := setToDefaultGoals d.work_sleep_data d.current_date g }
      | none => some d
  | .TargetBedtimeNextDayChanged =>
      let g := { d.default_work_sleep_goals with
        target_bedtime := { d.default_work_sleep_goals.target_bedtime with
          next_day := !d.default_work_sleep_goals.target_bedtime.next_day } }
      some { d with default_work_sleep_goals := g,
                    work_sleep_data := setToDefaultGoals d.work_sleep_data d.current_date g }
  | .SetBedtimePointsHalflife s =>
      match parseI64 s with
      | some v =>
        let g := { d.default_work_sleep_goals with bedtime_pts_halflife := v }
        some { d with default_work_sleep_goals := g,
                      work_sleep_data := setToDefaultGoals d.work_sleep_data d.current_date g }
      | none => none

/-- Sortedness invariant of the BTreeMap model: keys strictly increasing. -/
def KeysSorted (m : List (ℤ × WorkSleep)) : Prop :=
  (m.map Prod.fst).Pairwise (· < ·)

instance (m : List (ℤ × WorkSleep)) : Decidable (KeysSorted m) :=
  inferInstanceAs (Decidable ((m.map Prod.fst).Pairwise (· < ·)))

/-- Follows the spec's words for C6: a Bedtime's wall-clock instant in seconds,
shifted forward by 24 hours when its next_day flag is set. -/
def shiftForward24h (b : Bedtime) : ℤ :=
  b.time + if b.next_day then 86400 else 0

/-- Witness fixture: a pow function agreeing with powf(0.5, x) at x = 0 and x = 1. -/
def pwHalf : ℚ → ℚ := fun q => if q = 1 then 1 / 2 else 1

/-- Witness fixture: the default goals from init. -/
def gW : WorkSleepGoals :=
  { work_sleep_balance := 70
    target_work_count := 6
    target_bedtime := { time := 23 * 3600, next_day := false }
    bedtime_pts_halflife := 30 }

/-- Witness fixture: a day record with some activity recorded. -/
def wsW : WorkSleep :=
  { goals := gW, actual_work_count := 4
    actual_bedtime := some { time := 30 * 60, next_day := true } }

/-- Witness fixture: a store map holding records at dates 1 and 5. -/
def mW : List (ℤ × WorkSleep) := [(1, wsW), (5, freshWorkSleep gW)]

/-- Witness fixture: a WorkSleepData wrapping mW. -/
def sW : WorkSleepData := { week_start := 0, data := mW }

/-- Witness fixture: a session state whose text inputs all fail to parse. -/
def dataBadInputs : Data :=
  { initData 0 with
    new_task := { name := "", quantity := "abc" }
    current_date_bedtime := { time := "abc", is_next_day := false } }

/-- Witness fixture: a session state with quantity text "3". -/
def dQty3 : Data := { initData 0 with new_task := { name := "x", quantity := "3" } }

/-- Witness fixture: a session state with quantity text "0". -/
def dQty0 : Data := { initData 0 with new_task := { name := "x", quantity := "0" } }

theorem lookupDate_eq_none (m : List (ℤ × WorkSleep)) (d : ℤ)
    (h : ∀ p ∈ m, d ≠ p.1) : lookupDate m d = none := by
  induction m with
  | nil => rfl
  | cons kv rest ih =>
    obtain ⟨k, v⟩ := kv
    have hk : d ≠ k := h (k, v) (List.mem_cons_self _ _)
    simp only [lookupDate, hk, if_false]
    exact ih (fun p hp => h p (List.mem_cons_of_mem _ hp))

theorem lookupDate_gmocw_ne (d d' : ℤ) (g : WorkSleepGoals) (f : WorkSleep → WorkSleep)
    (m : List (ℤ × WorkSleep)) (h : d' ≠ d) :
    lookupDate (getMutOrCreateWith d g f m).2 d' = lookupDate m d' := by
  induction m with
  | nil => simp [getMutOrCreateWith, lookupDate, h]
  | cons kv rest ih =>
    obtain ⟨k, v⟩ := kv
    by_cases h1 : d < k
    · simp [getMutOrCreateWith, h1, lookupDate, h]
    · by_cases h2 : d = k
      · subst h2
        simp only [getMutOrCreateWith, h1, if_false, if_true, lookupDate]
        by_cases h3 : d' = d
        · exact absurd h3 h
        · simp [h3]
      · simp only [getMutOrCreateWith, h1, h2, if_false, lookupDate]
        by_cases h3 : d' = k
        · simp [h3]
        · simp [h3, ih]

theorem lookupDate_gmocw_self (d : ℤ) (g : WorkSleepGoals) (f : WorkSleep → WorkSleep) :
    ∀ m : List (ℤ × WorkSleep), KeysSorted m →
    lookupDate (getMutOrCreateWith d g f m).2 d
      = some (f ((lookupDate m d).getD (freshWorkSleep g))) := by
  intro m
  induction m with
  | nil => intro _; simp [getMutOrCreateWith, lookupDate]
  | cons kv rest ih =>
    obtain ⟨k, v⟩ := kv
    intro hs
    rw [KeysSorted, List.map_cons, List.pairwise_cons] at hs
    obtain ⟨hlt, hrest⟩ := hs
    by_cases h1 : d < k
    · have hnone : lookupDate ((k, v) :: rest) d = none := by
        apply lookupDate_eq_none
        intro p hp
        rcases List.mem_cons.mp hp with hp | hp
        · rw [hp]; exact ne_of_lt h1
        · have : k < p.1 := hlt p.1 (List.mem_map_of_mem Prod.fst hp)
          omega
      simp only [getMutOrCreateWith, if_pos h1, hnone, Option.getD_none]
      simp [lookupDate]
    · by_cases h2 : d = k
      · subst h2
        simp [getMutOrCreateWith, h1, lookupDate]
      · simp only [getMutOrCreateWith, h1, h2, if_false, lookupDate, ih hrest]

theorem gmocw_fst (d : ℤ) (g : WorkSleepGoals) (f : WorkSleep → WorkSleep) :
    ∀ m : List (ℤ × WorkSleep), KeysSorted m →
    (getMutOrCreateWith d g f m).1 = f ((lookupDate m d).getD (freshWorkSleep g)) := by
  intro m
  induction m with
  | nil => intro _; simp [getMutOrCreateWith, lookupDate]
  | cons kv rest ih =>
    obtain ⟨k, v⟩ := kv
    intro hs
    rw [KeysSorted, List.map_cons, List.pairwise_cons] at hs
    obtain ⟨hlt, hrest⟩ := hs
    by_cases h1 : d < k
    · have hnone : lookupDate ((k, v) :: rest) d = none := by
        apply lookupDate_eq_none
        intro p hp
        rcases List.mem_cons.mp hp with hp | hp
        · rw [hp]; exact ne_of_lt h1
        · have : k < p.1 := hlt p.1 (List.mem_map_of_mem Prod.fst hp)
          omega
      simp [getMutOrCreateWith, h1, hnone]
    · by_cases h2 : d = k
      · subst h2
        simp [getMutOrCreateWith, h1, lookupDate]
      · simp only [getMutOrCreateWith, h1, h2, if_false, lookupDate, ih hrest]

theorem gmocw_id_found (d : ℤ) (g : WorkSleepGoals) :
    ∀ m : List (ℤ × WorkSleep), KeysSorted m → ∀ ws, lookupDate m d = some ws →
    getMutOrCreateWith d g id m = (ws, m) := by
  intro m
  induction m with
  | nil => intro _ ws h; simp [lookupDate] at h
  | cons kv rest ih =>
    obtain ⟨k, v⟩ := kv
    intro hs ws h
    rw [KeysSorted, List.map_cons, List.pairwise_cons] at hs
    obtain ⟨hlt, hrest⟩ := hs
    by_cases h1 : d < k
    · have hnone : lookupDate ((k, v) :: rest) d = none := by
        apply lookupDate_eq_none
        intro p hp
        rcases List.mem_cons.mp hp with hp | hp
        · rw [hp]; exact ne_of_lt h1
        · have : k < p.1 := hlt p.1 (List.mem_map_of_mem Prod.fst hp)
          omega
      rw [hnone] at h
      cases h
    · by_cases h2 : d = k
      · subst h2
        simp only [lookupDate, if_pos rfl] at h
        obtain rfl : v = ws := Option.some.inj h
        simp [getMutOrCreateWith, h1]
      · simp only [lookupDate, h2, if_false] at h
        have hrec := ih hrest ws h
        simp [getMutOrCreateWith, h1, h2, hrec]

theorem getLast?_of_max : ∀ l : List ℤ, l.Pairwise (· < ·) →
    ∀ mx, mx ∈ l → (∀ k ∈ l, k ≤ mx) → l.getLast? = some mx := by
  intro l
  induction l with
  | nil => intro _ mx h; exact absurd h (List.not_mem_nil mx)
  | cons x rest ih =>
    intro hp mx hmem hub
    rw [List.pairwise_cons] at hp
    obtain ⟨hx, hrest⟩ := hp
    cases rest with
    | nil =>
      rcases List.mem_cons.mp hmem with h | h
      · rw [h]; rfl
      · exact absurd h (List.not_mem_nil mx)
    | cons y rest2 =>
      have hxy : x < y := hx y (List.mem_cons_self _ _)
      have hmx : mx ∈ y :: rest2 := by
        rcases List.mem_cons.mp hmem with h | h
        · exfalso
          have hy := hub y (List.mem_cons_of_mem _ (List.mem_cons_self _ _))
          omega
        · exact h
      have hub2 : ∀ k ∈ y :: rest2, k ≤ mx :=
        fun k hk => hub k (List.mem_cons_of_mem _ hk)
      rw [List.getLast?_cons_cons]
      exact ih hrest mx hmx hub2

theorem natAbs_tdiv_sixty (a : ℤ) : (a.tdiv 60).natAbs = a.natAbs / 60 := by
  cases a with
  | ofNat m => rfl
  | negSucc m =>
    show (-(Int.ofNat ((m + 1) / 60))).natAbs = (m + 1) / 60
    rw [Int.natAbs_neg]
    rfl

/-- C6: Bedtime::abs_diff equals the absolute wall-clock difference in whole
minutes after shifting each value forward by 24h when its next_day flag is
set; distance(00:30 next-day, 23:00 same-day) = 90, and the distance of a
value from itself is 0. -/
theorem abs_diff_minutes :
    (∀ a b : Bedtime,
      absDiff a b = ((shiftForward24h b - shiftForward24h a).natAbs / 60 : ℕ)) ∧
    absDiff ⟨30 * 60, true⟩ ⟨23 * 3600, false⟩ = 90 ∧
    (∀ a : Bedtime, absDiff a a = 0) := by
  refine ⟨?_, by decide, ?_⟩
  · intro a b
    have hXY : b.time - a.time + (if b.next_day then (86400 : ℤ) else 0)
        - (if a.next_day then (86400 : ℤ) else 0)
        = shiftForward24h b - shiftForward24h a := by
      unfold shiftForward24h; ring
    unfold absDiff
    rw [hXY, natAbs_tdiv_sixty]
  · intro a
    unfold absDiff
    have h0 : a.time - a.time + (if a.next_day then (86400 : ℤ) else 0)
        - (if a.next_day then (86400 : ℤ) else 0) = 0 := by ring
    rw [h0]
    decide

/-- C4: for a record with target_work_count > 0 and halflife > 0, calc_score
is round(actual_work_count * balance / target_work_count + sleep_term) where
the sleep term is exactly 0 with no bedtime, the full 100 - balance at
bedtime distance 0, and (100 - balance) * 1/2 at distance = halflife. -/
theorem calc_score_formula (ws : WorkSleep) (pw : ℚ → ℚ)
    (ht : 0 < ws.goals.target_work_count) (hh : 0 < ws.goals.bedtime_pts_halflife)
    (hp0 : pw 0 = 1) (hp1 : pw 1 = 1 / 2) :
    (ws.actual_bedtime = none → calcScoreWith pw ws =
      roundRat (((ws.actual_work_count * ws.goals.work_sleep_balance : ℤ) : ℚ)
        / (ws.goals.target_work_count : ℚ) + 0)) ∧
    (∀ ab, ws.actual_bedtime = some ab → absDiff ab ws.goals.target_bedtime = 0 →
      calcScoreWith pw ws =
        roundRat (((ws.actual_work_count * ws.goals.work_sleep_balance : ℤ) : ℚ)
          / (ws.goals.target_work_count : ℚ)
          + ((100 - ws.goals.work_sleep_balance : ℤ) : ℚ))) ∧
    (∀ ab, ws.actual_bedtime = some ab →
      absDiff ab ws.goals.target_bedtime = ws.goals.bedtime_pts_halflife →
      calcScoreWith pw ws =
        roundRat (((ws.actual_work_count * ws.goals.work_sleep_balance : ℤ) : ℚ)
          / (ws.goals.target_work_count : ℚ)
          + ((100 - ws.goals.work_sleep_balance : ℤ) : ℚ) * (1 / 2))) := by
  refine ⟨?_, ?_, ?_⟩
  · intro hb
    simp [calcScoreWith, hb]
  · intro ab hb hd
    simp only [calcScoreWith, hb]
    rw [hd]
    norm_num [hp0]
  · intro ab hb hd
    simp only [calcScoreWith, hb]
    rw [hd]
    rw [div_self (by exact_mod_cast ne_of_gt hh : (ws.goals.bedtime_pts_halflife : ℚ) ≠ 0)]
    rw [hp1]

/-- C5: set_week_start assigns current_date - 6 when the store is empty or
its greatest recorded date is at most current_date, and current_date - 3 when
the greatest recorded date exceeds current_date; no other outcome exists. -/
theorem set_week_start_policy (s : WorkSleepData) (dte : ℤ) (hs : KeysSorted s.data) :
    (s.data = [] → (setWeekStart s dte).week_start = dte - 6) ∧
    (∀ mx, mx ∈ s.data.map Prod.fst → (∀ k ∈ s.data.map Prod.fst, k ≤ mx) →
      (setWeekStart s dte).week_start = if mx ≤ dte then dte - 6 else dte - 3) ∧
    ((setWeekStart s dte).week_start = dte - 6 ∨
      (setWeekStart s dte).week_start = dte - 3) := by
  refine ⟨?_, ?_, ?_⟩
  · intro he
    simp [setWeekStart, he]
  · intro mx hmem hub
    have hlast : (s.data.map Prod.fst).getLast? = some mx :=
      getLast?_of_max _ hs mx hmem hub
    by_cases hle : mx ≤ dte
    · simp [setWeekStart, hlast, hle]
    · simp [setWeekStart, hlast, hle]
  · by_cases hemp : (s.data.map Prod.fst).getLast? = none
    · left; simp [setWeekStart, hemp]
    · obtain ⟨last_date, h⟩ := Option.ne_none_iff_exists'.mp hemp
      by_cases hle : last_date ≤ dte
      · left; simp [setWeekStart, h, hle]
      · right; simp [setWeekStart, h, hle]

/-- C7: set_to_default_goals on date d overwrites only the goals snapshot of
the record at d (lazily created if absent), preserving that record's
actual_work_count and actual_bedtime, every record at any other date, and the
week_start cursor. -/
theorem set_to_default_goals_frame (s : WorkSleepData) (dte : ℤ) (g : WorkSleepGoals)
    (hs : KeysSorted s.data) :
    (∀ d2, d2 ≠ dte →
      lookupDate (setToDefaultGoals s dte g).data d2 = lookupDate s.data d2) ∧
    (lookupDate (setToDefaultGoals s dte g).data dte).map WorkSleep.goals = some g ∧
    (lookupDate (setToDefaultGoals s dte g).data dte).map WorkSleep.actual_work_count
      = some (((lookupDate s.data dte).map WorkSleep.actual_work_count).getD 0) ∧
    (lookupDate (setToDefaultGoals s dte g).data dte).map WorkSleep.actual_bedtime
      = some (((lookupDate s.data dte).map WorkSleep.actual_bedtime).getD none) ∧
    (setToDefaultGoals s dte g).week_start = s.week_start := by
  have hdata : (setToDefaultGoals s dte g).data
      = (getMutOrCreateWith dte g (fun ws => { ws with goals := g }) s.data).2 := rfl
  have hself := lookupDate_gmocw_self dte g (fun ws => { ws with goals := g }) s.data hs
  refine ⟨?_, ?_, ?_, ?_, rfl⟩
  · intro d2 h2
    rw [hdata]
    exact lookupDate_gmocw_ne dte d2 g _ s.data h2
  · rw [hdata, hself]
    cases hl : lookupDate s.data dte <;> simp
  · rw [hdata, hself]
    cases hl : lookupDate s.data dte <;> simp [freshWorkSleep]
  · rw [hdata, hself]
    cases hl : lookupDate s.data dte <;> simp [freshWorkSleep]

/-- C9: get_mut_or_create returns the existing record when one is present,
leaving the map unchanged (idempotent, never resets existing data); when the
date is absent it inserts and returns a record seeded with a copy of the
given goals, zero work count and no bedtime, touching no other date. -/
theorem get_mut_or_create_spec (m : List (ℤ × WorkSleep)) (dte : ℤ)
    (g : WorkSleepGoals) (hs : KeysSorted m) :
    (∀ ws, lookupDate m dte = some ws → getMutOrCreateWith dte g id m = (ws, m)) ∧
    (lookupDate m dte = none →
      (getMutOrCreateWith dte g id m).1 = freshWorkSleep g ∧
      lookupDate (getMutOrCreateWith dte g id m).2 dte = some (freshWorkSleep g) ∧
      ∀ d2, d2 ≠ dte →
        lookupDate (getMutOrCreateWith dte g id m).2 d2 = lookupDate m d2) := by
  refine ⟨fun ws h => gmocw_id_found dte g m hs ws h, fun h => ⟨?_, ?_, ?_⟩⟩
  · rw [gmocw_fst dte g id m hs, h]
    rfl
  · rw [lookupDate_gmocw_self dte g id m hs, h]
    rfl
  · intro d2 h2
    exact lookupDate_gmocw_ne dte d2 g id m h2

/-- C1 (amended): FinishedTopTask drops the queue head when one exists (the
queue itself no-ops when empty) but ALWAYS increments actual_work_count of
the current date's record, creating it via get_mut_or_create when absent; the
increment is not conditioned on an item having been popped. Records at other
dates are untouched. -/
theorem finishedTopTask_pops_and_always_increments (d : Data)
    (hs : KeysSorted d.work_sleep_data.data) :
    (update Msg.FinishedTopTask d).map (fun d2 => d2.planned_work_periods)
      = some d.planned_work_periods.tail ∧
    (update Msg.FinishedTopTask d).map
      (fun d2 => (lookupDate d2.work_sleep_data.data d.current_date).map
        WorkSleep.actual_work_count)
      = some (some (((lookupDate d.work_sleep_data.data d.current_date).map
          WorkSleep.actual_work_count).getD 0 + 1)) ∧
    (∀ d3, d3 ≠ d.current_date →
      (update Msg.FinishedTopTask d).map
        (fun d2 => lookupDate d2.work_sleep_data.data d3)
        = some (lookupDate d.work_sleep_data.data d3)) := by
  have hself := lookupDate_gmocw_self d.current_date d.default_work_sleep_goals
    (fun ws => { ws with actual_work_count := ws.actual_work_count + 1 })
    d.work_sleep_data.data hs
  refine ⟨rfl, ?_, ?_⟩
  · simp only [update, Option.map]
    rw [hself]
    cases hl : lookupDate d.work_sleep_data.data d.current_date <;>
      simp [hl, freshWorkSleep]
  · intro d3 h3
    simp only [update, Option.map]
    rw [lookupDate_gmocw_ne d.current_date d3 d.default_work_sleep_goals _
      d.work_sleep_data.data h3]

/-- C1 (counterexample): from the init state at date 0 — whose task queue is
empty — FinishedTopTask still creates the day record and increments its
actual_work_count to 1, refuting the claim that no increment occurs when no
item was popped. -/
theorem finishedTopTask_increments_on_empty_queue :
    (initData 0).planned_work_periods = [] ∧
    (update Msg.FinishedTopTask (initData 0)).map
      (fun d2 => (lookupDate d2.work_sleep_data.data 0).map WorkSleep.actual_work_count)
      = some (some 1) :=
  ⟨rfl, by decide⟩

/-- C2 (counterexample): SetWorkSleepBalance with the non-numeric text "abc"
panics (modelled as update returning none) instead of silently retaining the
previous state. -/
theorem setWorkSleepBalance_panics_on_bad_input :
    update (Msg.SetWorkSleepBalance "abc") (initData 0) = none := by
  decide

/-- C2 (amended): UpdateBedtime with unparseable time text leaves the state
untouched and AddNewTask with unparseable quantity text falls back to one
entry, but the three numeric goal setters (SetWorkSleepBalance,
SetTargetWorkCount, SetBedtimePointsHalflife) panic on a failed parse via
expect rather than retaining the previous state. -/
theorem update_parse_failure_behavior (d : Data) (s : String)
    (hq : parseI64 s = none) (hb : parseTimeHM d.current_date_bedtime.time = none)
    (hqty : d.new_task.quantity = s) :
    update Msg.UpdateBedtime d = some d ∧
    (update Msg.AddNewTask d).map (fun d2 => d2.planned_work_periods)
      = some (d.planned_work_periods ++ [{ id := d.next_uuid, name := d.new_task.name }]) ∧
    update (Msg.SetWorkSleepBalance s) d = none ∧
    update (Msg.SetTargetWorkCount s) d = none ∧
    update (Msg.SetBedtimePointsHalflife s) d = none := by
  refine ⟨?_, ?_, ?_, ?_, ?_⟩
  · simp [update, hb]
  · simp [update, hqty, hq, List.range_succ]
  · simp [update, hq]
  · simp [update, hq]
  · simp [update, hq]

/-- C3 (counterexample): SetTargetWorkCount "0" is accepted: the default
goals' target_work_count becomes 0 and the current day's goals snapshot is
resynced to 0, so nothing at the setter boundary rejects or clamps zero. -/
theorem setTargetWorkCount_accepts_zero :
    (update (Msg.SetTargetWorkCount "0") (initData 0)).map
      (fun d2 => d2.default_work_sleep_goals.target_work_count) = some 0 ∧
    (update (Msg.SetTargetWorkCount "0") (initData 0)).map
      (fun d2 => (lookupDate d2.work_sleep_data.data 0).map
        (fun ws => ws.goals.target_work_count)) = some (some 0) :=
  ⟨by decide, by decide⟩

/-- C3 (amended): the setter performs no validation: any quantity text that
parses to an integer n — 0 and negatives included — is stored as
target_work_count and resynced into the current day's record, so a zero
divisor for calc_score is reachable through the command interface. -/
theorem setTargetWorkCount_stores_any_parsed_value (d : Data) (s : String) (n : ℤ)
    (hp : parseI64 s = some n) (hs : KeysSorted d.work_sleep_data.data) :
    (update (Msg.SetTargetWorkCount s) d).map
      (fun d2 => d2.default_work_sleep_goals.target_work_count) = some n ∧
    (update (Msg.SetTargetWorkCount s) d).map
      (fun d2 => (lookupDate d2.work_sleep_data.data d.current_date).map
        (fun ws => ws.goals.target_work_count)) = some (some n) := by
  have hself := lookupDate_gmocw_self d.current_date
    { d.default_work_sleep_goals with target_work_count := n }
    (fun ws => { ws with goals :=
      { d.default_work_sleep_goals with target_work_count := n } })
    d.work_sleep_data.data hs
  constructor
  · simp [update, hp]
  · simp only [update, hp, Option.map, setToDefaultGoals]
    rw [hself]

/-- C8: AddNewTask with quantity text parsing to n > 0 appends exactly n
entries to the back of the queue in insertion order, each carrying the
entered name and a fresh id distinct from every other entry's id (given that
existing ids predate the fresh-id supply); quantity parse failure appends
exactly one entry. -/
theorem addNewTask_enqueue_many (d : Data)
    (hfresh : ∀ p ∈ d.planned_work_periods, p.id < d.next_uuid) :
    (∀ n : ℤ, parseI64 d.new_task.quantity = some n → 0 < n →
      (update Msg.AddNewTask d).map (fun d2 => d2.planned_work_periods)
        = some (d.planned_work_periods ++ (List.range n.toNat).map
            (fun i => { id := d.next_uuid + i, name := d.new_task.name })) ∧
      ((List.range n.toNat).map (fun i => d.next_uuid + i)).Nodup ∧
      (∀ p ∈ d.planned_work_periods, ∀ i < n.toNat, p.id ≠ d.next_uuid + i)) ∧
    (parseI64 d.new_task.quantity = none →
      (update Msg.AddNewTask d).map (fun d2 => d2.planned_work_periods)
        = some (d.planned_work_periods ++
            [{ id := d.next_uuid, name := d.new_task.name }])) := by
  constructor
  · intro n hp _
    refine ⟨by simp [update, hp], ?_, ?_⟩
    · exact List.Nodup.map (fun a b h => by omega) (List.nodup_range _)
    · intro p hp2 i _
      have := hfresh p hp2
      omega
  · intro hp
    simp [update, hp, List.range_succ]

/-- C10: AddNewTask with quantity text that parses to n ≤ 0 (for example "0"
or "-3") appends nothing at all — the state is returned unchanged; the
one-entry default applies only to parse failures. -/
theorem addNewTask_nonpositive_quantity (d : Data) (n : ℤ)
    (hp : parseI64 d.new_task.quantity = some n) (hn : n ≤ 0) :
    update Msg.AddNewTask d = some d := by
  simp [update, hp, Int.toNat_of_nonpos hn]

theorem calc_score_formula_witness :
    (0 : ℤ) < 6 ∧ (0 : ℤ) < 30 ∧ pwHalf 0 = 1 ∧ pwHalf 1 = 1 / 2 ∧
    calcScoreWith pwHalf { goals := gW, actual_work_count := 6, actual_bedtime := none }
      = 70 := by
  refine ⟨by decide, by decide, by norm_num [pwHalf], by norm_num [pwHalf], ?_⟩
  have h := (calc_score_formula
    { goals := gW, actual_work_count := 6, actual_bedtime := none }
    pwHalf (by decide) (by decide) (by norm_num [pwHalf]) (by norm_num [pwHalf])).1 rfl
  rw [h]
  have hX : (((6 * 70 : ℤ) : ℚ) / ((6 : ℤ) : ℚ) + 0 : ℚ) = 70 := by norm_num
  show roundRat (((6 * 70 : ℤ) : ℚ) / ((6 : ℤ) : ℚ) + 0) = 70
  rw [hX, roundRat, if_pos (by norm_num : (0 : ℚ) ≤ 70)]
  rw [Int.floor_eq_iff]
  constructor <;> norm_num

theorem set_week_start_policy_witness :
    KeysSorted sW.data ∧ (5 : ℤ) ∈ sW.data.map Prod.fst ∧
    (setWeekStart sW 4).week_start = if (5 : ℤ) ≤ 4 then 4 - 6 else 4 - 3 :=
  ⟨by decide, by decide,
    (set_week_start_policy sW 4 (by decide)).2.1 5 (by decide) (by decide)⟩

theorem set_to_default_goals_frame_witness :
    KeysSorted sW.data ∧
    (lookupDate (setToDefaultGoals sW 1 gW).data 1).map WorkSleep.actual_work_count
      = some (((lookupDate sW.data 1).map WorkSleep.actual_work_count).getD 0) :=
  ⟨by decide, (set_to_default_goals_frame sW 1 gW (by decide)).2.2.1⟩

theorem get_mut_or_create_spec_witness :
    KeysSorted mW ∧ lookupDate mW 1 = some wsW ∧
    getMutOrCreateWith 1 gW id mW = (wsW, mW) :=
  ⟨by decide, by decide, (get_mut_or_create_spec mW 1 gW (by decide)).1 wsW (by decide)⟩

theorem finishedTopTask_pops_and_always_increments_witness :
    KeysSorted (initData 0).work_sleep_data.data ∧
    (update Msg.FinishedTopTask (initData 0)).map
      (fun d2 => (lookupDate d2.work_sleep_data.data (initData 0).current_date).map
        WorkSleep.actual_work_count)
      = some (some (((lookupDate (initData 0).work_sleep_data.data
          (initData 0).current_date).map WorkSleep.actual_work_count).getD 0 + 1)) :=
  ⟨by decide, (finishedTopTask_pops_and_always_increments (initData 0) (by decide)).2.1⟩

theorem update_parse_failure_behavior_witness :
    parseI64 "abc" = none ∧ parseTimeHM "abc" = none ∧
    update Msg.UpdateBedtime dataBadInputs = some dataBadInputs ∧
    update (Msg.SetWorkSleepBalance "abc") dataBadInputs = none :=
  ⟨by decide, by decide,
    (update_parse_failure_behavior dataBadInputs "abc" (by decide) (by decide) rfl).1,
    (update_parse_failure_behavior dataBadInputs "abc" (by decide) (by decide) rfl).2.2.1⟩

theorem setTargetWorkCount_stores_any_parsed_value_witness :
    parseI64 "0" = some 0 ∧ KeysSorted (initData 0).work_sleep_data.data ∧
    (update (Msg.SetTargetWorkCount "0") (initData 0)).map
      (fun d2 => d2.default_work_sleep_goals.target_work_count) = some 0 :=
  ⟨by decide, by decide,
    (setTargetWorkCount_stores_any_parsed_value (initData 0) "0" 0
      (by decide) (by decide)).1⟩

theorem addNewTask_enqueue_many_witness :
    parseI64 dQty3.new_task.quantity = some 3 ∧
    (update Msg.AddNewTask dQty3).map (fun d2 => d2.planned_work_periods)
      = some (dQty3.planned_work_periods ++ (List.range (3 : ℤ).toNat).map
          (fun i => { id := dQty3.next_uuid + i, name := dQty3.new_task.name })) :=
  ⟨by decide,
    ((addNewTask_enqueue_many dQty3 (by decide)).1 3 (by decide) (by decide)).1⟩

theorem addNewTask_nonpositive_quantity_witness :
    parseI64 dQty0.new_task.quantity = some 0 ∧
    update Msg.AddNewTask dQty0 = some dQty0 :=
  ⟨by decide, addNewTask_nonpositive_quantity dQty0 0 (by decide) (by decide)⟩
